import Mathlib

/-!
# Verification of the vrepsim scene-object wrapper library

Shallow embedding of `vrepsim/objects.py` and `vrepsim/collections.py`.

The library wraps a remote-procedure-call client (the external `vrep`
module): every wrapped operation inspects local state, possibly issues one
or more remote calls, and translates status codes into exceptions.  We
model each Python method as a pure Lean function that takes

* the object state (`SceneObject` holds `_name` and `_handle`),
* the connection identifier `client_id : Option Int` supplied by the
  external `Communicator` base class (absent from `src/`; the spec says it
  only "supplies a connection handle and liveness check", so it is passed
  here as an explicit argument),
* the simulator liveness answer `is_sim_started : Bool` where the source
  consults it, and
* the server's response to each remote call, injected as an explicit
  argument (the remote side is an opaque dependency),

and returns the result as `Except VError α` paired with the number of
remote calls actually issued (`Nat`), so that "raises before issuing a
remote call" is directly expressible.  Python exception classes become
constructors of `VError`; Python floats are modelled as rationals.
-/

/-- Python exception taxonomy as raised by the source: the three custom
classes from `vrepsim.exceptions` plus the builtin `RuntimeError`,
`ValueError`, `TypeError` and `IndexError` that the source raises. -/
inductive VError where
  | connectionError (msg : String)
  | serverError (msg : String)
  | simulationError (msg : String)
  | runtimeError (msg : String)
  | valueError (msg : String)
  | typeError (msg : String)
  | indexError
  deriving Repr, DecidableEq

/-- Model of `vrep.simx_return_ok` from the external V-REP remote API bindings. -/
def simx_return_ok : Int := 0

/-- Model of `vrep.simx_return_novalue_flag` from the external V-REP remote API
bindings. -/
def simx_return_novalue_flag : Int := 1

/-- Model of `vrep.sim_scripttype_childscript` from the external V-REP bindings. -/
def sim_scripttype_childscript : Int := 1

/-- Model of `vrep.sim_scripttype_customizationscript` from the external V-REP
bindings. -/
def sim_scripttype_customizationscript : Int := 6

/-- Python `round(x, prec)` on our rational model of floats: round half to
even at `prec` decimal digits. -/
def pyRound (x : ℚ) (prec : Nat) : ℚ :=
  let y := x * (10 : ℚ) ^ prec
  let n := ⌊y⌋
  let r := y - n
  let k := if r < 1 / 2 then n
    else if 1 / 2 < r then n + 1
    else if n % 2 = 0 then n else n + 1
  (k : ℚ) / (10 : ℚ) ^ prec

/-- State of a `SceneObject` wrapper: the stored name and the numeric
handle (`-1` = unset, `-2` = removed, `≥ 0` = live, per the source). -/
structure SceneObject where
  mk ::
  nameF : String
  handleF : Int
  deriving Repr, DecidableEq

/-- A result paired with the number of remote calls issued. -/
abbrev Res (α : Type) := Except VError α × Nat

namespace SceneObject

/-- Model of `SceneObject.handle` property: the handle if nonnegative, `None`
(modelled as `none`) if `-1`, a `RuntimeError` if `-2` (removed) or any
other negative value (invalid). -/
def handle (obj : SceneObject) : Except VError (Option Int) :=
  if obj.handleF ≥ 0 then .ok (some obj.handleF)
  else if obj.handleF = -1 then .ok none
  else if obj.handleF = -2 then
    .error (.runtimeError ("Could not retrieve handle to " ++ obj.nameF ++
      ": object removed."))
  else
    .error (.runtimeError ("Could not retrieve handle to " ++ obj.nameF ++
      ": invalid handle."))

/-- Model of `SceneObject.name` property: raises if removed, returns `None`
(modelled as `none`) for the `"_Unnamed_"` placeholder. -/
def name (obj : SceneObject) : Except VError (Option String) :=
  if obj.handleF = -2 then
    .error (.runtimeError ("Could not retrieve name of " ++ obj.nameF ++
      ": object removed."))
  else if obj.nameF ≠ "_Unnamed_" then .ok (some obj.nameF)
  else .ok none

/-- Argument of the static `SceneObject.get_handle`: Python passes `None`,
an `int`, a `SceneObject`, or a value of any other type. -/
inductive HandleSrc where
  | pyNone
  | pyInt (h : Int)
  | pyObj (o : SceneObject)
  | pyOther
  deriving Repr

/-- Static `SceneObject.get_handle(scene_obj, name)`: dispatches on the
runtime type of `scene_obj`. -/
def get_handle (scene_obj : HandleSrc) (nm : String) : Except VError Int :=
  match scene_obj with
  | .pyNone => .ok (-1)
  | .pyInt h => .ok h
  | .pyObj o =>
    match o.handle with
    | .error e => .error e
    | .ok none => .error (.valueError ("Handle of " ++ nm ++ " is invalid."))
    | .ok (some h) => .ok h
  | .pyOther => .error (.typeError ("Type of " ++ nm ++ " is not supported."))

/-- Model of `SceneObject.get_position`: removed check, connection check, relative
handle resolution, then one remote call whose status is translated. The
server response is `(res, position)`. -/
def get_position (obj : SceneObject) (client_id : Option Int)
    (relative : HandleSrc) (resp : Int × (ℚ × ℚ × ℚ)) : Res (ℚ × ℚ × ℚ) :=
  if obj.handleF = -2 then
    (.error (.runtimeError ("Could not retrieve position of " ++ obj.nameF ++
      ": object removed.")), 0)
  else match client_id with
  | none =>
    (.error (.connectionError ("Could not retrieve position of " ++
      obj.nameF ++ ": not connected to V-REP remote API server.")), 0)
  | some _ =>
    match get_handle relative "relative" with
    | .error e => (.error e, 0)
    | .ok _ =>
      let (res, position) := resp
      if res ≠ simx_return_ok then
        (.error (.serverError ("Could not retrieve position of " ++
          obj.nameF ++ ".")), 1)
      else (.ok position, 1)

/-- Model of `SceneObject.set_position`: removed check, connection check, the
simulation-running guard (skipped when `allow_in_sim`), relative handle
resolution, then one remote call. -/
def set_position (obj : SceneObject) (client_id : Option Int)
    (is_sim_started : Bool) (position : ℚ × ℚ × ℚ) (relative : HandleSrc)
    (allow_in_sim : Bool) (resp : Int) : Res Unit :=
  if obj.handleF = -2 then
    (.error (.runtimeError ("Could not set position of " ++ obj.nameF ++
      ": object removed.")), 0)
  else match client_id with
  | none =>
    (.error (.connectionError ("Could not set position of " ++ obj.nameF ++
      ": not connected to V-REP remote API server.")), 0)
  | some _ =>
    if !allow_in_sim && is_sim_started then
      (.error (.simulationError ("Could not set position of " ++ obj.nameF ++
        ": setting position not allowed during simulation.")), 0)
    else
      match get_handle relative "relative" with
      | .error e => (.error e, 0)
      | .ok _ =>
        if resp ≠ simx_return_ok then
          (.error (.serverError ("Could not set position of " ++ obj.nameF ++
            ".")), 1)
        else (.ok (), 1)

/-- Model of `SceneObject.get_orientation`: same structure as `get_position`. -/
def get_orientation (obj : SceneObject) (client_id : Option Int)
    (relative : HandleSrc) (resp : Int × (ℚ × ℚ × ℚ)) : Res (ℚ × ℚ × ℚ) :=
  if obj.handleF = -2 then
    (.error (.runtimeError ("Could not retrieve orientation of " ++
      obj.nameF ++ ": object removed.")), 0)
  else match client_id with
  | none =>
    (.error (.connectionError ("Could not retrieve orientation of " ++
      obj.nameF ++ ": not connected to V-REP remote API server.")), 0)
  | some _ =>
    match get_handle relative "relative" with
    | .error e => (.error e, 0)
    | .ok _ =>
      let (res, orientation) := resp
      if res ≠ simx_return_ok then
        (.error (.serverError ("Could not retrieve orientation of " ++
          obj.nameF ++ ".")), 1)
      else (.ok orientation, 1)

/-- Model of `SceneObject.set_orientation`: same structure as `set_position`. -/
def set_orientation (obj : SceneObject) (client_id : Option Int)
    (is_sim_started : Bool) (orientation : ℚ × ℚ × ℚ) (relative : HandleSrc)
    (allow_in_sim : Bool) (resp : Int) : Res Unit :=
  if obj.handleF = -2 then
    (.error (.runtimeError ("Could not set orientation of " ++ obj.nameF ++
      ": object removed.")), 0)
  else match client_id with
  | none =>
    (.error (.connectionError ("Could not set orientation of " ++
      obj.nameF ++ ": not connected to V-REP remote API server.")), 0)
  | some _ =>
    if !allow_in_sim && is_sim_started then
      (.error (.simulationError ("Could not set orientation of " ++
        obj.nameF ++ ": setting orientation not allowed during "
        ++ "simulation.")), 0)
    else
      match get_handle relative "relative" with
      | .error e => (.error e, 0)
      | .ok _ =>
        if resp ≠ simx_return_ok then
          (.error (.serverError ("Could not set orientation of " ++
            obj.nameF ++ ".")), 1)
        else (.ok (), 1)

/-- Model of `SceneObject.get_parent_handle`: removed check, connection check, one
remote call `(res, handle)`. -/
def get_parent_handle (obj : SceneObject) (client_id : Option Int)
    (resp : Int × Int) : Res Int :=
  if obj.handleF = -2 then
    (.error (.runtimeError ("Could not retrieve handle to the parent of " ++
      obj.nameF ++ ": object removed.")), 0)
  else match client_id with
  | none =>
    (.error (.connectionError ("Could not retrieve handle to the parent of "
      ++ obj.nameF ++ ": not connected to V-REP remote API server.")), 0)
  | some _ =>
    let (res, h) := resp
    if res ≠ simx_return_ok then
      (.error (.serverError ("Could not retrieve handle to the parent of " ++
        obj.nameF ++ ".")), 1)
    else (.ok h, 1)

/-- Model of `SceneObject.set_parent`: removed check, connection check, parent
handle resolution, one remote call. -/
def set_parent (obj : SceneObject) (client_id : Option Int)
    (parent : HandleSrc) (keep_pos : Bool) (resp : Int) : Res Unit :=
  if obj.handleF = -2 then
    (.error (.runtimeError ("Could not set parent of " ++ obj.nameF ++
      ": object removed.")), 0)
  else match client_id with
  | none =>
    (.error (.connectionError ("Could not set parent of " ++ obj.nameF ++
      ": not connected to V-REP remote API server.")), 0)
  | some _ =>
    match get_handle parent "parent" with
    | .error e => (.error e, 0)
    | .ok _ =>
      if resp ≠ simx_return_ok then
        (.error (.serverError ("Could not set parent of " ++ obj.nameF ++
          ".")), 1)
      else (.ok (), 1)

/-- Model of `SceneObject.copy_paste`: removed check, connection check, one remote
call returning `(res, handles)`; on success the first returned handle. -/
def copy_paste (obj : SceneObject) (client_id : Option Int)
    (resp : Int × List Int) : Res Int :=
  if obj.handleF = -2 then
    (.error (.runtimeError ("Could not copy and paste " ++ obj.nameF ++
      ": object removed.")), 0)
  else match client_id with
  | none =>
    (.error (.connectionError ("Could not copy and paste " ++ obj.nameF ++
      ": not connected to V-REP remote API server.")), 0)
  | some _ =>
    let (res, handles) := resp
    if res ≠ simx_return_ok then
      (.error (.serverError ("Could not copy and paste " ++ obj.nameF ++
        ".")), 1)
    else
      match handles with
      | h :: _ => (.ok h, 1)
      | [] => (.error .indexError, 1)

/-- Model of `remove`: removed check, connection check, one remote call; on success
the handle becomes `-2`.  The new object state is returned. -/
def remove (obj : SceneObject) (client_id : Option Int) (resp : Int) :
    Res SceneObject :=
  if obj.handleF = -2 then
    (.error (.runtimeError ("Could not remove " ++ obj.nameF ++
      ": object already removed.")), 0)
  else match client_id with
  | none =>
    (.error (.connectionError ("Could not remove " ++ obj.nameF ++
      ": not connected to V-REP remote API server.")), 0)
  | some _ =>
    if resp ≠ simx_return_ok then
      (.error (.serverError ("Could not remove " ++ obj.nameF ++ ".")), 1)
    else (.ok { obj with handleF := -2 }, 1)

/-- The dict `ASSOC_SCRIPT_TYPES` in `call_script_func`: lookup of the
script-type string, `none` for an unsupported key. -/
def ASSOC_SCRIPT_TYPES (script_type : String) : Option Int :=
  if script_type = "child" then some sim_scripttype_childscript
  else if script_type = "customization" then
    some sim_scripttype_customizationscript
  else none

/-- Model of `SceneObject.call_script_func`: script-type validation first (a
`ValueError` on unsupported type), then removed check, connection check,
one remote call returning `(res, ints, floats, strings, buf)`. -/
def call_script_func (obj : SceneObject) (client_id : Option Int)
    (funcname : String) (script_type : String)
    (resp : Int × List Int × List ℚ × List String × List Int) :
    Res (List Int × List ℚ × List String × List Int) :=
  match ASSOC_SCRIPT_TYPES script_type with
  | none => (.error (.valueError "Script type is not supported."), 0)
  | some _ =>
    if obj.handleF = -2 then
      (.error (.runtimeError ("Could not call function " ++ funcname ++
        " from " ++ script_type ++ " script associated with " ++ obj.nameF ++
        ": object removed.")), 0)
    else match client_id with
    | none =>
      (.error (.connectionError ("Could not call function " ++ funcname ++
        " from " ++ script_type ++ " script associated with " ++ obj.nameF ++
        ": not connected to V-REP remote API server.")), 0)
    | some _ =>
      let (res, rets_int, rets_float, rets_string, rets_buf) := resp
      if res ≠ simx_return_ok then
        (.error (.serverError ("Could not call function " ++ funcname ++
          " from " ++ script_type ++ " script associated with " ++
          obj.nameF ++ ".")), 1)
      else (.ok (rets_int, rets_float, rets_string, rets_buf), 1)

/-- The six `(label, param)` entries of `BBOX_LIMITS` in
`get_bbox_limits`, by label only (the numeric parameter ids are opaque
constants of the external bindings). -/
def BBOX_LIMITS : List String :=
  ["x_min", "x_max", "y_min", "y_max", "z_min", "z_max"]

/-- The loop body of `get_bbox_limits`: one remote call per limit, failing
on the first non-success status, optionally rounding each value. -/
def bboxLoop (obj : SceneObject) (prec : Option Nat)
    (resps : Nat → Int × ℚ) : List String → Nat → Res (List ℚ)
  | [], _ => (.ok [], 0)
  | label :: rest, i =>
    let (res, lim) := resps i
    if res ≠ simx_return_ok then
      (.error (.serverError ("Could not retrieve " ++ label ++ " limit of "
        ++ obj.nameF ++ " bounding box.")), 1)
    else
      let lim := match prec with
        | some p => pyRound lim p
        | none => lim
      match bboxLoop obj prec resps rest (i + 1) with
      | (.error e, n) => (.error e, n + 1)
      | (.ok lims, n) => (.ok (lim :: lims), n + 1)

/-- Pairing of consecutive min/max limits at the end of
`get_bbox_limits` (`zip(bbox_limits[::2], bbox_limits[1::2])`). -/
def pairLimits : List ℚ → List (List ℚ)
  | mn :: mx :: rest => [mn, mx] :: pairLimits rest
  | _ => []

/-- Model of `SceneObject.get_bbox_limits`: removed check, connection check, six
remote calls (one per bounding-box limit), optional rounding, then pairing
into `[[x_min, x_max], [y_min, y_max], [z_min, z_max]]`. -/
def get_bbox_limits (obj : SceneObject) (client_id : Option Int)
    (prec : Option Nat) (resps : Nat → Int × ℚ) : Res (List (List ℚ)) :=
  if obj.handleF = -2 then
    (.error (.runtimeError ("Could not retrieve limits of " ++ obj.nameF ++
      " bounding box: object removed.")), 0)
  else match client_id with
  | none =>
    (.error (.connectionError ("Could not retrieve limits of " ++ obj.nameF
      ++ " bounding box: not connected to V-REP remote API server.")), 0)
  | some _ =>
    match bboxLoop obj prec resps BBOX_LIMITS 0 with
    | (.error e, n) => (.error e, n)
    | (.ok lims, n) => (.ok (pairLimits lims), n)

/-- Model of `SceneObject._get_handle`: connection check, one remote call
`(res, handle)` resolving the stored name, `ServerError` on non-success. -/
def _get_handle (nm : String) (client_id : Option Int) (resp : Int × Int) :
    Res Int :=
  match client_id with
  | none =>
    (.error (.connectionError ("Could not retrieve handle to " ++ nm ++
      ": not connected to V-REP remote API server.")), 0)
  | some _ =>
    let (res, h) := resp
    if res ≠ simx_return_ok then
      (.error (.serverError ("Could not retrieve handle to " ++ nm ++
        ".")), 1)
    else (.ok h, 1)

/-- Model of `SceneObject.__init__`: a truthy name is resolved through
`_get_handle`; a falsy name (`None` or `""`) stores the `"_Unnamed_"`
placeholder and handle `-1` without any remote call. -/
def init (pyName : Option String) (client_id : Option Int)
    (resp : Int × Int) : Res SceneObject :=
  match pyName with
  | some nm =>
    if nm ≠ "" then
      match _get_handle nm client_id resp with
      | (.error e, n) => (.error e, n)
      | (.ok h, n) => (.ok ⟨nm, h⟩, n)
    else (.ok ⟨"_Unnamed_", -1⟩, 0)
  | none => (.ok ⟨"_Unnamed_", -1⟩, 0)

end SceneObject

/-- Model of `Motor.set_velocity`: removed check, connection check, one remote
call. -/
def Motor.set_velocity (obj : SceneObject) (client_id : Option Int)
    (velocity : ℚ) (resp : Int) : Res Unit :=
  if obj.handleF = -2 then
    (.error (.runtimeError ("Could not set " ++ obj.nameF ++
      " velocity: object removed.")), 0)
  else match client_id with
  | none =>
    (.error (.connectionError ("Could not set " ++ obj.nameF ++
      " velocity: not connected to V-REP remote API server.")), 0)
  | some _ =>
    if resp ≠ simx_return_ok then
      (.error (.serverError ("Could not set " ++ obj.nameF ++
        " velocity.")), 1)
    else (.ok (), 1)

/-- Python `range(0, stop, step)` for a positive `step`: the multiples of
`step` below `stop`. -/
def pyRangeStep (stop step : Nat) : List Nat :=
  (List.range ((stop + step - 1) / step)).map (fun i => i * step)

/-- Python `l[i]` on a list with a nonnegative index: the element, or an
`IndexError` when the index is out of range. -/
def pyGetItem {α : Type} (l : List α) (i : Nat) : Except VError α :=
  match l.get? i with
  | some v => .ok v
  | none => .error .indexError

/-- A pixel as produced by `VisionSensor.get_image`: a bare intensity in
the grayscale branch, a 3-element RGB list otherwise (Python builds these
dynamically; the tag records which shape the value has). -/
inductive Pixel where
  | gray (v : Int)
  | rgb (t : List Int)
  deriving Repr, DecidableEq

/-- Model of `ProximitySensor.get_inv_distance`: removed check, connection check,
one remote call returning `(res, detect, point)` where `point` is the
detected point; success with detection yields `1.0 - point[2]`, success
without detection or the no-value status yields `0.0`, any other status a
`ServerError`. -/
def ProximitySensor.get_inv_distance (obj : SceneObject)
    (client_id : Option Int) (resp : Int × Bool × (ℚ × ℚ × ℚ)) : Res ℚ :=
  if obj.handleF = -2 then
    (.error (.runtimeError ("Could not retrieve data from " ++ obj.nameF ++
      ": object removed.")), 0)
  else match client_id with
  | none =>
    (.error (.connectionError ("Could not retrieve data from " ++ obj.nameF
      ++ ": not connected to V-REP remote API server.")), 0)
  | some _ =>
    let (res, detect, point) := resp
    if res = simx_return_ok then
      if detect then (.ok (1 - point.2.2), 1)
      else (.ok 0, 1)
    else if res = simx_return_novalue_flag then (.ok 0, 1)
    else
      (.error (.serverError ("Could not retrieve data from " ++ obj.nameF ++
        ".")), 1)

/-- Model of `VisionSensor.get_image`: removed check, connection check, one remote
call returning `(res, resolution, image)`; then sign correction of pixel
bytes (`val + 256` for negative values), RGB-triplet grouping unless
grayscale, and row grouping with bottom-up to top-down reversal. -/
def VisionSensor.get_image (obj : SceneObject) (client_id : Option Int)
    (grayscale : Bool) (resp : Int × (Nat × Nat) × List Int) :
    Res (List (List Pixel)) :=
  if obj.handleF = -2 then
    (.error (.runtimeError ("Could not retrieve image from " ++ obj.nameF ++
      ": object removed.")), 0)
  else match client_id with
  | none =>
    (.error (.connectionError ("Could not retrieve image from " ++
      obj.nameF ++ ": not connected to V-REP remote API server.")), 0)
  | some _ =>
    let (res, resolution, image0) := resp
    if res ≠ simx_return_ok then
      (.error (.serverError ("Could not retrieve image from " ++ obj.nameF
        ++ ".")), 1)
    else
      let image1 := image0.map (fun val => if val ≥ 0 then val else val + 256)
      let (width, height) := resolution
      let n_pixels := width * height
      let image2 : List Pixel :=
        if !grayscale then
          (pyRangeStep (3 * n_pixels) 3).map
            (fun p => .rgb ((image1.drop p).take 3))
        else image1.map .gray
      let image3 := (pyRangeStep n_pixels width).reverse.map
        (fun p => (image2.drop p).take width)
      (.ok image3, 1)

/-- The loop of `MotorArray.set_velocities`: for each motor in order,
index the velocity list (an `IndexError` past its end) and invoke
`set_velocity`; `m` is the running loop index, `resps` the status of the
remote call issued for each index. -/
def MotorArray.setVelocitiesLoop (client_id : Option Int)
    (motor_velocities : List ℚ) (resps : Nat → Int) :
    List SceneObject → Nat → Res Unit
  | [], _ => (.ok (), 0)
  | motor :: rest, m =>
    match pyGetItem motor_velocities m with
    | .error e => (.error e, 0)
    | .ok v =>
      match Motor.set_velocity motor client_id v (resps m) with
      | (.error e, n) => (.error e, n)
      | (.ok _, n) =>
        let (r, n2) :=
          MotorArray.setVelocitiesLoop client_id motor_velocities resps rest
            (m + 1)
        (r, n + n2)

/-- Model of `MotorArray.set_velocities` on an array holding the given motors. -/
def MotorArray.set_velocities (motors : List SceneObject)
    (client_id : Option Int) (motor_velocities : List ℚ)
    (resps : Nat → Int) : Res Unit :=
  MotorArray.setVelocitiesLoop client_id motor_velocities resps motors 0

/-- Modelled from the spec: `EMPTY_NAME` comes from `vrepsim/constants.py`,
which is not under `src/`; it is only a diagnostic placeholder appearing in
the missing-name error message of `Collection._get_handle`, and no claim
depends on its value. -/
def EMPTY_NAME : String := "_Unnamed_"

/-- State of a `Collection` wrapper: stored name and group handle. -/
structure Collection where
  mk ::
  nameF : String
  handleF : Int
  deriving Repr, DecidableEq

namespace Collection

/-- Model of `Collection._get_handle`: missing-name check (`RuntimeError`),
connection check, one remote call `(res, handle)`. -/
def _get_handle (nm : String) (client_id : Option Int) (resp : Int × Int) :
    Res Int :=
  if nm = "" then
    (.error (.runtimeError ("Could not retrieve handle to " ++ EMPTY_NAME ++
      ": missing name.")), 0)
  else match client_id with
  | none =>
    (.error (.connectionError ("Could not retrieve handle to " ++ nm ++
      ": not connected to V-REP remote API server.")), 0)
  | some _ =>
    let (res, h) := resp
    if res ≠ simx_return_ok then
      (.error (.serverError ("Could not retrieve handle to " ++ nm ++
        ".")), 1)
    else (.ok h, 1)

/-- Model of `Collection.__init__`: stores the name and resolves the group handle
through `Collection._get_handle`. -/
def init (nm : String) (client_id : Option Int) (resp : Int × Int) :
    Res Collection :=
  match _get_handle nm client_id resp with
  | (.error e, n) => (.error e, n)
  | (.ok h, n) => (.ok ⟨nm, h⟩, n)

/-- Model of `Collection.get_positions`: connection check, one remote call
returning `(res, positions)` as a flat coordinate list, optional rounding
of every coordinate, then grouping into consecutive 3-element lists. -/
def get_positions (col : Collection) (client_id : Option Int)
    (prec : Option Nat) (resp : Int × List ℚ) : Res (List (List ℚ)) :=
  match client_id with
  | none =>
    (.error (.connectionError ("Could not retrieve positions of " ++
      col.nameF ++ ": not connected to V-REP remote API server.")), 0)
  | some _ =>
    let (res, positions0) := resp
    if res ≠ simx_return_ok then
      (.error (.serverError ("Could not retrieve positions of " ++
        col.nameF ++ ".")), 1)
    else
      let positions := match prec with
        | some p => positions0.map (fun coord => pyRound coord p)
        | none => positions0
      (.ok ((pyRangeStep positions.length 3).map
        (fun p => (positions.drop p).take 3)), 1)

end Collection

/-!
## Theorems settling the claims
-/

/-- Claim C10 — A `SceneObject` constructed with an empty or `None` name
performs no remote call (call count 0) and succeeds even without a
connection (any `client_id`, any would-be response); afterwards the
`handle` property returns `None` (not an error) and the `name` property
returns `None`, never exposing the internal `"_Unnamed_"` placeholder. -/
theorem c10_unnamed_construction :
    (∀ (client_id : Option Int) (resp : Int × Int),
      SceneObject.init (some "") client_id resp =
        (.ok ⟨"_Unnamed_", -1⟩, 0)) ∧
    (∀ (client_id : Option Int) (resp : Int × Int),
      SceneObject.init none client_id resp = (.ok ⟨"_Unnamed_", -1⟩, 0)) ∧
    SceneObject.handle ⟨"_Unnamed_", -1⟩ = .ok none ∧
    SceneObject.name ⟨"_Unnamed_", -1⟩ = .ok none := by
  exact ⟨fun c r => rfl, fun c r => rfl, rfl, rfl⟩

/-- Claim C5 — For a non-removed `ProximitySensor` with a live connection,
`get_inv_distance()` returns `0.0` both on success without detection and
on the no-value status (indistinguishably), and on success with detection
returns `1.0` minus the z-coordinate of the detected point. -/
theorem c5_inv_distance (obj : SceneObject) (c : Int) (detect : Bool)
    (point : ℚ × ℚ × ℚ) (hlive : obj.handleF ≠ -2) :
    ProximitySensor.get_inv_distance obj (some c)
      (simx_return_ok, false, point) = (.ok 0, 1) ∧
    ProximitySensor.get_inv_distance obj (some c)
      (simx_return_novalue_flag, detect, point) = (.ok 0, 1) ∧
    ProximitySensor.get_inv_distance obj (some c)
      (simx_return_ok, true, point) = (.ok (1 - point.2.2), 1) := by
  refine ⟨?_, ?_, ?_⟩ <;>
    simp [ProximitySensor.get_inv_distance, hlive, simx_return_ok,
      simx_return_novalue_flag]

/-- Witness for C5 at a concrete sensor and response. -/
theorem c5_inv_distance_witness :
    ProximitySensor.get_inv_distance ⟨"sensor", 3⟩ (some 0)
      (simx_return_ok, true, (0, 0, 3/10)) = (.ok (1 - 3/10), 1) :=
  (c5_inv_distance ⟨"sensor", 3⟩ 0 true (0, 0, 3/10) (by decide)).2.2

/-- Claim C3 — For a non-removed `SceneObject` with a live connection,
`set_position` and `set_orientation` raise `SimulationError` before the
remote set call (0 calls issued) whenever the simulation is reported
running and `allow_in_sim` was not passed, while `allow_in_sim = true`
skips the simulation check entirely (the result does not depend on the
simulation state) and the remote set call proceeds (1 call issued). -/
theorem c3_sim_guard (obj : SceneObject) (c : Int) (pos ori : ℚ × ℚ × ℚ)
    (rel : SceneObject.HandleSrc) (s : Bool) (resp : Int)
    (hlive : obj.handleF ≠ -2)
    (hrel : ∃ rh, SceneObject.get_handle rel "relative" = .ok rh) :
    SceneObject.set_position obj (some c) true pos rel false resp =
      (.error (.simulationError ("Could not set position of " ++ obj.nameF
        ++ ": setting position not allowed during simulation.")), 0) ∧
    SceneObject.set_orientation obj (some c) true ori rel false resp =
      (.error (.simulationError ("Could not set orientation of " ++
        obj.nameF ++ ": setting orientation not allowed during "
        ++ "simulation.")), 0) ∧
    (∀ s1 s2 : Bool,
      SceneObject.set_position obj (some c) s1 pos rel true resp =
        SceneObject.set_position obj (some c) s2 pos rel true resp) ∧
    (∀ s1 s2 : Bool,
      SceneObject.set_orientation obj (some c) s1 ori rel true resp =
        SceneObject.set_orientation obj (some c) s2 ori rel true resp) ∧
    (SceneObject.set_position obj (some c) s pos rel true resp).2 = 1 ∧
    (SceneObject.set_orientation obj (some c) s ori rel true resp).2 = 1 := by
  obtain ⟨rh, hrh⟩ := hrel
  refine ⟨?_, ?_, ?_, ?_, ?_, ?_⟩
  · simp [SceneObject.set_position, hlive]
  · simp [SceneObject.set_orientation, hlive]
  · intro s1 s2; simp [SceneObject.set_position, hlive, hrh]
  · intro s1 s2; simp [SceneObject.set_orientation, hlive, hrh]
  · simp only [SceneObject.set_position, if_neg hlive, Bool.not_true,
      Bool.false_and, Bool.false_eq_true, if_false, hrh]
    split <;> rfl
  · simp only [SceneObject.set_orientation, if_neg hlive, Bool.not_true,
      Bool.false_and, Bool.false_eq_true, if_false, hrh]
    split <;> rfl

/-- Witness for C3 at a concrete object, relative frame and response. -/
theorem c3_sim_guard_witness :
    SceneObject.set_position ⟨"obj", 3⟩ (some 0) true (0, 0, 0) .pyNone
      false 0 =
      (.error (.simulationError ("Could not set position of " ++ "obj" ++
        ": setting position not allowed during simulation.")), 0) :=
  (c3_sim_guard ⟨"obj", 3⟩ 0 (0, 0, 0) (0, 0, 0) .pyNone true 0 (by decide)
    ⟨-1, rfl⟩).1

/-- Claim C6 — Constructing a wrapper (`SceneObject` or `Collection`) with a
non-empty name raises `ConnectionError` without a remote call when there
is no live connection, raises `ServerError` when the server returns a
non-success status for the name lookup, and on success yields an object
holding exactly the handle the server returned (Live: the `handle`
property returns it when nonnegative). -/
theorem c6_construction (nm : String) (c h res : Int) (r0 : Int × Int)
    (hnm : nm ≠ "") :
    SceneObject.init (some nm) none r0 =
      (.error (.connectionError ("Could not retrieve handle to " ++ nm ++
        ": not connected to V-REP remote API server.")), 0) ∧
    (res ≠ simx_return_ok →
      SceneObject.init (some nm) (some c) (res, h) =
        (.error (.serverError ("Could not retrieve handle to " ++ nm ++
          ".")), 1)) ∧
    SceneObject.init (some nm) (some c) (simx_return_ok, h) =
      (.ok ⟨nm, h⟩, 1) ∧
    (0 ≤ h → (SceneObject.mk nm h).handle = .ok (some h)) ∧
    Collection.init nm none r0 =
      (.error (.connectionError ("Could not retrieve handle to " ++ nm ++
        ": not connected to V-REP remote API server.")), 0) ∧
    (res ≠ simx_return_ok →
      Collection.init nm (some c) (res, h) =
        (.error (.serverError ("Could not retrieve handle to " ++ nm ++
          ".")), 1)) ∧
    Collection.init nm (some c) (simx_return_ok, h) = (.ok ⟨nm, h⟩, 1) := by
  refine ⟨?_, ?_, ?_, ?_, ?_, ?_, ?_⟩
  · simp [SceneObject.init, SceneObject._get_handle, hnm]
  · intro hres; simp [SceneObject.init, SceneObject._get_handle, hnm, hres]
  · simp [SceneObject.init, SceneObject._get_handle, hnm]
  · intro hh; simp [SceneObject.handle, hh]
  · simp [Collection.init, Collection._get_handle, hnm]
  · intro hres; simp [Collection.init, Collection._get_handle, hnm, hres]
  · simp [Collection.init, Collection._get_handle, hnm]

/-- Witness for C6 at a concrete name, handle and statuses. -/
theorem c6_construction_witness :
    SceneObject.init (some "robot") (some 0) (simx_return_ok, 7) =
      (.ok ⟨"robot", 7⟩, 1) :=
  (c6_construction "robot" 0 7 5 (0, 0) (by decide)).2.2.1

/-- Discriminator used to state that a raised error is not the generic
`RuntimeError`. -/
def VError.isRuntimeError : VError → Bool
  | .runtimeError _ => true
  | _ => false

/-- Counterexample to claim C7 as stated: `call_script_func` with the
unsupported script type `"main"` raises `ValueError`, and
`SceneObject.get_handle` on an argument of unsupported type raises
`TypeError`; neither is the generic `RuntimeError` the claim requires. -/
theorem c7_counterexample :
    SceneObject.call_script_func ⟨"obj", 3⟩ (some 0) "fn" "main"
      (0, [], [], [], []) =
      (.error (.valueError "Script type is not supported."), 0) ∧
    (VError.valueError "Script type is not supported.").isRuntimeError
      = false ∧
    SceneObject.get_handle .pyOther "parent" =
      .error (.typeError "Type of parent is not supported.") ∧
    (VError.typeError "Type of parent is not supported.").isRuntimeError
      = false :=
  ⟨rfl, rfl, rfl, rfl⟩

/-- Claim C7, amended — Invalid-local-state failures raise Python builtin
exceptions, but not uniformly `RuntimeError`: an unsupported script type
raises `ValueError` (before any other check) and an unsupported
handle-source type raises `TypeError`, while a removed or otherwise
invalid handle and a missing collection name do raise `RuntimeError`. -/
theorem c7_amended (obj : SceneObject) (c : Option Int) (fn st nm : String)
    (cl : Option Int) (r0 : Int × Int)
    (resp : Int × List Int × List ℚ × List String × List Int)
    (hst : SceneObject.ASSOC_SCRIPT_TYPES st = none) :
    SceneObject.call_script_func obj c fn st resp =
      (.error (.valueError "Script type is not supported."), 0) ∧
    SceneObject.get_handle .pyOther nm =
      .error (.typeError ("Type of " ++ nm ++ " is not supported.")) ∧
    (obj.handleF = -2 →
      obj.handle = .error (.runtimeError ("Could not retrieve handle to "
        ++ obj.nameF ++ ": object removed."))) ∧
    (obj.handleF < -2 →
      obj.handle = .error (.runtimeError ("Could not retrieve handle to "
        ++ obj.nameF ++ ": invalid handle."))) ∧
    Collection._get_handle "" cl r0 =
      (.error (.runtimeError ("Could not retrieve handle to " ++ EMPTY_NAME
        ++ ": missing name.")), 0) := by
  refine ⟨?_, rfl, ?_, ?_, rfl⟩
  · unfold SceneObject.call_script_func
    rw [hst]
  · intro hrem; simp [SceneObject.handle, hrem]
  · intro hinv
    have h1 : ¬ obj.handleF ≥ 0 := by omega
    have h2 : obj.handleF ≠ -1 := by omega
    have h3 : obj.handleF ≠ -2 := by omega
    simp [SceneObject.handle, h1, h2, h3]

/-- Witness for C7 (amended) at a concrete unsupported script type. -/
theorem c7_amended_witness :
    SceneObject.call_script_func ⟨"obj", 3⟩ (some 0) "fn" "main"
      (0, [], [], [], []) =
      (.error (.valueError "Script type is not supported."), 0) :=
  (c7_amended ⟨"obj", 3⟩ (some 0) "fn" "main" "parent" (some 0) (0, 0)
    (0, [], [], [], []) rfl).1

/-- Counterexample to claim C4 as stated: `ProximitySensor.get_inv_distance`
with the non-zero status code 1 (the no-value flag) issues the remote call
and returns `0.0` normally instead of raising `ServerError`. -/
theorem c4_counterexample :
    ProximitySensor.get_inv_distance ⟨"sensor", 3⟩ (some 0)
      (1, true, (0, 0, 0)) = (.ok 0, 1) ∧
    (1 : Int) ≠ simx_return_ok :=
  ⟨rfl, by decide⟩

/-- Helper for C4: the bounding-box loop succeeds, with one remote call
per limit, when every response status is a success. -/
theorem bboxLoop_all_ok (obj : SceneObject) (prec : Option Nat)
    (resps : Nat → Int × ℚ) (labels : List String) (i0 : Nat)
    (hok : ∀ k, k < labels.length → (resps (i0 + k)).1 = simx_return_ok) :
    ∃ lims, SceneObject.bboxLoop obj prec resps labels i0 =
      (.ok lims, labels.length) := by
  induction labels generalizing i0 with
  | nil => exact ⟨[], rfl⟩
  | cons label rest ih =>
    rcases hsp : resps i0 with ⟨res0, lim0⟩
    have h0 : res0 = simx_return_ok := by
      have h := hok 0 (by simp)
      rw [Nat.add_zero, hsp] at h
      exact h
    subst h0
    obtain ⟨lims, hlims⟩ := ih (i0 + 1) (fun k hk => by
      have h := hok (k + 1) (by simp; omega)
      rw [show i0 + (k + 1) = i0 + 1 + k by omega] at h
      exact h)
    refine ⟨(match prec with
      | some p => pyRound lim0 p
      | none => lim0) :: lims, ?_⟩
    simp only [SceneObject.bboxLoop, hsp]
    cases prec <;> simp [hlims]

/-- Helper for C4: the bounding-box loop raises `ServerError` naming the
first limit whose remote call returns a non-success status, after issuing
the calls up to and including the failing one. -/
theorem bboxLoop_first_fail (obj : SceneObject) (prec : Option Nat)
    (resps : Nat → Int × ℚ) (labels : List String) (i0 k : Nat)
    (hk : k < labels.length)
    (hok : ∀ j, j < k → (resps (i0 + j)).1 = simx_return_ok)
    (hfail : (resps (i0 + k)).1 ≠ simx_return_ok) :
    SceneObject.bboxLoop obj prec resps labels i0 =
      (.error (.serverError ("Could not retrieve " ++ labels.get ⟨k, hk⟩ ++
        " limit of " ++ obj.nameF ++ " bounding box.")), k + 1) := by
  induction labels generalizing i0 k with
  | nil => simp at hk
  | cons label rest ih =>
    rcases hsp : resps i0 with ⟨res0, lim0⟩
    cases k with
    | zero =>
      have hf : res0 ≠ simx_return_ok := by
        rw [Nat.add_zero, hsp] at hfail
        exact hfail
      simp only [SceneObject.bboxLoop, hsp]
      simp [hf]
    | succ kp =>
      have h0 : res0 = simx_return_ok := by
        have h := hok 0 (by omega)
        rw [Nat.add_zero, hsp] at h
        exact h
      subst h0
      have hrec := ih (i0 + 1) kp (by simpa using hk)
        (fun j hj => by
          have h := hok (j + 1) (by omega)
          rw [show i0 + (j + 1) = i0 + 1 + j by omega] at h
          exact h)
        (by
          rw [show i0 + 1 + kp = i0 + (kp + 1) by omega]
          exact hfail)
      simp only [SceneObject.bboxLoop, hsp]
      simp [hrec]

/-- Claim C4, amended — For every modeled wrapper operation that issues a
remote call (`get_position`, `set_position`, `get_orientation`,
`set_orientation`, `get_parent_handle`, `set_parent`, `copy_paste`,
`call_script_func`, `get_bbox_limits`, `remove`, `_get_handle`,
`set_velocity`, `get_inv_distance`, `get_image`, `Collection._get_handle`
and `Collection.get_positions`): absence of a connection identifier
raises `ConnectionError` before any remote call (0 calls); a success
status (0) never raises, provided the success payload is well-formed
(`copy_paste` needs at least one returned handle, else the source's
`handles[0]` raises `IndexError`, and `get_image` needs a positive
width); and every non-zero status raises `ServerError` with a message
naming the failed operation and target — except
`ProximitySensor.get_inv_distance`, which treats the non-zero no-value
status 1 as "no detection" and returns `0.0` instead of raising.
Setters are stated with the simulation not running so that the guard of
claim C3 passes, and `call_script_func` with a supported script type
(claim C7's `ValueError` corner). -/
theorem c4_amended (obj : SceneObject) (col : Collection) (c res : Int)
    (rel par : SceneObject.HandleSrc) (hlive : obj.handleF ≠ -2)
    (hrel : ∃ rh, SceneObject.get_handle rel "relative" = .ok rh)
    (hpar : ∃ ph, SceneObject.get_handle par "parent" = .ok ph)
    (hres : res ≠ simx_return_ok) :
    (∀ pos, SceneObject.get_position obj (some c) rel
      (simx_return_ok, pos) = (.ok pos, 1)) ∧
    (∀ pos, SceneObject.get_position obj (some c) rel (res, pos) =
      (.error (.serverError ("Could not retrieve position of " ++
        obj.nameF ++ ".")), 1)) ∧
    (∀ r, SceneObject.get_position obj none rel r =
      (.error (.connectionError ("Could not retrieve position of " ++
        obj.nameF ++ ": not connected to V-REP remote API server.")),
        0)) ∧
    (∀ a pos, SceneObject.set_position obj (some c) false pos rel a
      simx_return_ok = (.ok (), 1)) ∧
    (∀ a pos, SceneObject.set_position obj (some c) false pos rel a res =
      (.error (.serverError ("Could not set position of " ++ obj.nameF ++
        ".")), 1)) ∧
    (∀ s pos a r, SceneObject.set_position obj none s pos rel a r =
      (.error (.connectionError ("Could not set position of " ++
        obj.nameF ++ ": not connected to V-REP remote API server.")),
        0)) ∧
    (∀ ori, SceneObject.get_orientation obj (some c) rel
      (simx_return_ok, ori) = (.ok ori, 1)) ∧
    (∀ ori, SceneObject.get_orientation obj (some c) rel (res, ori) =
      (.error (.serverError ("Could not retrieve orientation of " ++
        obj.nameF ++ ".")), 1)) ∧
    (∀ r, SceneObject.get_orientation obj none rel r =
      (.error (.connectionError ("Could not retrieve orientation of " ++
        obj.nameF ++ ": not connected to V-REP remote API server.")),
        0)) ∧
    (∀ a ori, SceneObject.set_orientation obj (some c) false ori rel a
      simx_return_ok = (.ok (), 1)) ∧
    (∀ a ori, SceneObject.set_orientation obj (some c) false ori rel a res
      = (.error (.serverError ("Could not set orientation of " ++
        obj.nameF ++ ".")), 1)) ∧
    (∀ s ori a r, SceneObject.set_orientation obj none s ori rel a r =
      (.error (.connectionError ("Could not set orientation of " ++
        obj.nameF ++ ": not connected to V-REP remote API server.")),
        0)) ∧
    (∀ hh, SceneObject.get_parent_handle obj (some c)
      (simx_return_ok, hh) = (.ok hh, 1)) ∧
    (∀ hh, SceneObject.get_parent_handle obj (some c) (res, hh) =
      (.error (.serverError ("Could not retrieve handle to the parent of "
        ++ obj.nameF ++ ".")), 1)) ∧
    (∀ r, SceneObject.get_parent_handle obj none r =
      (.error (.connectionError ("Could not retrieve handle to the parent of " ++ obj.nameF ++ ": not connected to V-REP remote API server.")), 0)) ∧
    (∀ kp, SceneObject.set_parent obj (some c) par kp simx_return_ok =
      (.ok (), 1)) ∧
    (∀ kp, SceneObject.set_parent obj (some c) par kp res =
      (.error (.serverError ("Could not set parent of " ++ obj.nameF ++
        ".")), 1)) ∧
    (∀ kp r, SceneObject.set_parent obj none par kp r =
      (.error (.connectionError ("Could not set parent of " ++ obj.nameF
        ++ ": not connected to V-REP remote API server.")), 0)) ∧
    (∀ hd tl, SceneObject.copy_paste obj (some c)
      (simx_return_ok, hd :: tl) = (.ok hd, 1)) ∧
    SceneObject.copy_paste obj (some c) (simx_return_ok, []) =
      (.error .indexError, 1) ∧
    (∀ hs, SceneObject.copy_paste obj (some c) (res, hs) =
      (.error (.serverError ("Could not copy and paste " ++ obj.nameF ++
        ".")), 1)) ∧
    (∀ r, SceneObject.copy_paste obj none r =
      (.error (.connectionError ("Could not copy and paste " ++ obj.nameF
        ++ ": not connected to V-REP remote API server.")), 0)) ∧
    (∀ fn st rets, SceneObject.ASSOC_SCRIPT_TYPES st ≠ none →
      SceneObject.call_script_func obj (some c) fn st
        (simx_return_ok, rets) = (.ok rets, 1)) ∧
    (∀ fn st rets, SceneObject.ASSOC_SCRIPT_TYPES st ≠ none →
      SceneObject.call_script_func obj (some c) fn st (res, rets) =
        (.error (.serverError ("Could not call function " ++ fn ++
          " from " ++ st ++ " script associated with " ++ obj.nameF ++
          ".")), 1)) ∧
    (∀ fn st r, SceneObject.ASSOC_SCRIPT_TYPES st ≠ none →
      SceneObject.call_script_func obj none fn st r =
        (.error (.connectionError ("Could not call function " ++ fn ++
          " from " ++ st ++ " script associated with " ++ obj.nameF ++
          ": not connected to V-REP remote API server.")), 0)) ∧
    (∀ prec resps, (∀ k, k < 6 → (resps k).1 = simx_return_ok) →
      ∃ lims, SceneObject.get_bbox_limits obj (some c) prec resps =
        (.ok lims, 6)) ∧
    (∀ prec resps k, ∀ hk : k < SceneObject.BBOX_LIMITS.length,
      (∀ j, j < k → (resps j).1 = simx_return_ok) →
      (resps k).1 ≠ simx_return_ok →
      SceneObject.get_bbox_limits obj (some c) prec resps =
        (.error (.serverError ("Could not retrieve " ++
          SceneObject.BBOX_LIMITS.get ⟨k, hk⟩ ++ " limit of " ++
          obj.nameF ++ " bounding box.")), k + 1)) ∧
    (∀ prec resps, SceneObject.get_bbox_limits obj none prec resps =
      (.error (.connectionError ("Could not retrieve limits of " ++ obj.nameF ++ " bounding box: not connected to V-REP remote API server.")), 0)) ∧
    SceneObject.remove obj (some c) simx_return_ok =
      (.ok { obj with handleF := -2 }, 1) ∧
    SceneObject.remove obj (some c) res =
      (.error (.serverError ("Could not remove " ++ obj.nameF ++ ".")),
        1) ∧
    (∀ r, SceneObject.remove obj none r =
      (.error (.connectionError ("Could not remove " ++ obj.nameF ++
        ": not connected to V-REP remote API server.")), 0)) ∧
    (∀ nm hh, SceneObject._get_handle nm (some c) (simx_return_ok, hh) =
      (.ok hh, 1)) ∧
    (∀ nm hh, SceneObject._get_handle nm (some c) (res, hh) =
      (.error (.serverError ("Could not retrieve handle to " ++ nm ++
        ".")), 1)) ∧
    (∀ nm r, SceneObject._get_handle nm none r =
      (.error (.connectionError ("Could not retrieve handle to " ++ nm ++
        ": not connected to V-REP remote API server.")), 0)) ∧
    (∀ v, Motor.set_velocity obj (some c) v simx_return_ok =
      (.ok (), 1)) ∧
    (∀ v, Motor.set_velocity obj (some c) v res =
      (.error (.serverError ("Could not set " ++ obj.nameF ++
        " velocity.")), 1)) ∧
    (∀ v r, Motor.set_velocity obj none v r =
      (.error (.connectionError ("Could not set " ++ obj.nameF ++
        " velocity: not connected to V-REP remote API server.")), 0)) ∧
    (∀ detect point, ProximitySensor.get_inv_distance obj (some c)
      (simx_return_ok, detect, point) =
      (.ok (if detect then 1 - point.2.2 else 0), 1)) ∧
    (∀ detect point, ProximitySensor.get_inv_distance obj (some c)
      (simx_return_novalue_flag, detect, point) = (.ok 0, 1)) ∧
    (∀ detect point, res ≠ simx_return_novalue_flag →
      ProximitySensor.get_inv_distance obj (some c) (res, detect, point) =
        (.error (.serverError ("Could not retrieve data from " ++
          obj.nameF ++ ".")), 1)) ∧
    (∀ r, ProximitySensor.get_inv_distance obj none r =
      (.error (.connectionError ("Could not retrieve data from " ++
        obj.nameF ++ ": not connected to V-REP remote API server.")),
        0)) ∧
    (∀ g w h raw, 0 < w → ∃ img, VisionSensor.get_image obj (some c) g
      (simx_return_ok, (w, h), raw) = (.ok img, 1)) ∧
    (∀ g resol raw, VisionSensor.get_image obj (some c) g
      (res, resol, raw) =
      (.error (.serverError ("Could not retrieve image from " ++
        obj.nameF ++ ".")), 1)) ∧
    (∀ g r, VisionSensor.get_image obj none g r =
      (.error (.connectionError ("Could not retrieve image from " ++
        obj.nameF ++ ": not connected to V-REP remote API server.")),
        0)) ∧
    (∀ nm hh, nm ≠ "" →
      Collection._get_handle nm (some c) (simx_return_ok, hh) =
        (.ok hh, 1)) ∧
    (∀ nm hh, nm ≠ "" →
      Collection._get_handle nm (some c) (res, hh) =
        (.error (.serverError ("Could not retrieve handle to " ++ nm ++
          ".")), 1)) ∧
    (∀ nm r, nm ≠ "" →
      Collection._get_handle nm none r =
        (.error (.connectionError ("Could not retrieve handle to " ++ nm
          ++ ": not connected to V-REP remote API server.")), 0)) ∧
    (∀ prec ps, ∃ out, Collection.get_positions col (some c) prec
      (simx_return_ok, ps) = (.ok out, 1)) ∧
    (∀ prec ps, Collection.get_positions col (some c) prec (res, ps) =
      (.error (.serverError ("Could not retrieve positions of " ++
        col.nameF ++ ".")), 1)) ∧
    (∀ prec r, Collection.get_positions col none prec r =
      (.error (.connectionError ("Could not retrieve positions of " ++
        col.nameF ++ ": not connected to V-REP remote API server.")),
        0)) := by
  obtain ⟨rh, hrh⟩ := hrel
  obtain ⟨ph, hph⟩ := hpar
  refine ⟨?_, ?_, ?_, ?_, ?_, ?_, ?_, ?_, ?_, ?_, ?_, ?_, ?_, ?_, ?_, ?_,
    ?_, ?_, ?_, ?_, ?_, ?_, ?_, ?_, ?_, ?_, ?_, ?_, ?_, ?_, ?_, ?_, ?_,
    ?_, ?_, ?_, ?_, ?_, ?_, ?_, ?_, ?_, ?_, ?_, ?_, ?_, ?_, ?_, ?_, ?_⟩
  · intro pos; simp [SceneObject.get_position, hlive, hrh]
  · intro pos; simp [SceneObject.get_position, hlive, hrh, hres]
  · intro r; simp [SceneObject.get_position, hlive]
  · intro a pos; simp [SceneObject.set_position, hlive, hrh]
  · intro a pos; simp [SceneObject.set_position, hlive, hrh, hres]
  · intro s pos a r; simp [SceneObject.set_position, hlive]
  · intro ori; simp [SceneObject.get_orientation, hlive, hrh]
  · intro ori; simp [SceneObject.get_orientation, hlive, hrh, hres]
  · intro r; simp [SceneObject.get_orientation, hlive]
  · intro a ori; simp [SceneObject.set_orientation, hlive, hrh]
  · intro a ori; simp [SceneObject.set_orientation, hlive, hrh, hres]
  · intro s ori a r; simp [SceneObject.set_orientation, hlive]
  · intro hh; simp [SceneObject.get_parent_handle, hlive]
  · intro hh; simp [SceneObject.get_parent_handle, hlive, hres]
  · intro r; simp [SceneObject.get_parent_handle, hlive]
  · intro kp; simp [SceneObject.set_parent, hlive, hph]
  · intro kp; simp [SceneObject.set_parent, hlive, hph, hres]
  · intro kp r; simp [SceneObject.set_parent, hlive]
  · intro hd tl; simp [SceneObject.copy_paste, hlive]
  · simp [SceneObject.copy_paste, hlive]
  · intro hs; simp [SceneObject.copy_paste, hlive, hres]
  · intro r; simp [SceneObject.copy_paste, hlive]
  · intro fn st rets hst
    obtain ⟨v, hv⟩ := Option.ne_none_iff_exists.mp hst
    unfold SceneObject.call_script_func
    rw [← hv]
    simp [hlive]
  · intro fn st rets hst
    obtain ⟨v, hv⟩ := Option.ne_none_iff_exists.mp hst
    unfold SceneObject.call_script_func
    rw [← hv]
    simp [hlive, hres]
  · intro fn st r hst
    obtain ⟨v, hv⟩ := Option.ne_none_iff_exists.mp hst
    unfold SceneObject.call_script_func
    rw [← hv]
    simp [hlive]
  · intro prec resps hok
    obtain ⟨lims, hlims⟩ := bboxLoop_all_ok obj prec resps
      SceneObject.BBOX_LIMITS 0
      (fun k hk => by simpa using hok k (by simpa using hk))
    have h6 : SceneObject.BBOX_LIMITS.length = 6 := rfl
    rw [h6] at hlims
    refine ⟨SceneObject.pairLimits lims, ?_⟩
    simp [SceneObject.get_bbox_limits, hlive, hlims]
  · intro prec resps k hk hok hfail
    have hloop := bboxLoop_first_fail obj prec resps
      SceneObject.BBOX_LIMITS 0 k hk
      (fun j hj => by simpa using hok j hj) (by simpa using hfail)
    simp [SceneObject.get_bbox_limits, hlive, hloop]
  · intro prec resps; simp [SceneObject.get_bbox_limits, hlive]
  · simp [SceneObject.remove, hlive]
  · simp [SceneObject.remove, hlive, hres]
  · intro r; simp [SceneObject.remove, hlive]
  · intro nm hh; simp [SceneObject._get_handle]
  · intro nm hh; simp [SceneObject._get_handle, hres]
  · intro nm r; simp [SceneObject._get_handle]
  · intro v; simp [Motor.set_velocity, hlive]
  · intro v; simp [Motor.set_velocity, hlive, hres]
  · intro v r; simp [Motor.set_velocity, hlive]
  · intro detect point
    cases detect <;> simp [ProximitySensor.get_inv_distance, hlive,
      simx_return_ok, simx_return_novalue_flag]
  · intro detect point
    simp [ProximitySensor.get_inv_distance, hlive, simx_return_ok,
      simx_return_novalue_flag]
  · intro detect point hnov
    simp [ProximitySensor.get_inv_distance, hlive, hres, hnov]
  · intro r; simp [ProximitySensor.get_inv_distance, hlive]
  · intro g w h raw hw
    cases g with
    | false =>
      refine ⟨((pyRangeStep (w * h) w).reverse.map (fun p =>
        (((pyRangeStep (3 * (w * h)) 3).map (fun q =>
          Pixel.rgb (((raw.map
            (fun v => if v ≥ 0 then v else v + 256)).drop q).take
              3))).drop p).take w)), ?_⟩
      simp only [VisionSensor.get_image, if_neg hlive]
      rfl
    | true =>
      refine ⟨((pyRangeStep (w * h) w).reverse.map (fun p =>
        ((((raw.map (fun v => if v ≥ 0 then v else v + 256)).map
          Pixel.gray)).drop p).take w)), ?_⟩
      simp only [VisionSensor.get_image, if_neg hlive]
      rfl
  · intro g resol raw; simp [VisionSensor.get_image, hlive, hres]
  · intro g r; simp [VisionSensor.get_image, hlive]
  · intro nm hh hnm; simp [Collection._get_handle, hnm]
  · intro nm hh hnm; simp [Collection._get_handle, hnm, hres]
  · intro nm r hnm; simp [Collection._get_handle, hnm]
  · intro prec ps
    cases prec with
    | none =>
      refine ⟨(pyRangeStep ps.length 3).map
        (fun q => (ps.drop q).take 3), ?_⟩
      simp [Collection.get_positions]
    | some p =>
      refine ⟨(pyRangeStep (ps.map (fun coord => pyRound coord p)).length
        3).map (fun q =>
          ((ps.map (fun coord => pyRound coord p)).drop q).take 3), ?_⟩
      simp [Collection.get_positions]
  · intro prec ps; simp [Collection.get_positions, hres]
  · intro prec r; simp [Collection.get_positions]

/-- Witness for C4 (amended) at a concrete object, collection and
non-zero status. -/
theorem c4_amended_witness :
    SceneObject.get_position ⟨"obj", 3⟩ (some 0) .pyNone (8, (0, 0, 0)) =
      (.error (.serverError ("Could not retrieve position of " ++ "obj" ++
        ".")), 1) :=
  (c4_amended ⟨"obj", 3⟩ ⟨"col", 5⟩ 0 8 .pyNone .pyNone (by decide)
    ⟨-1, rfl⟩ ⟨-1, rfl⟩ (by decide)).2.1 (0, 0, 0)
/-- Claim C1 — After a successful `remove()` the handle is `-2`, and on any
object in that state every handle-dependent operation (`get_position`,
`set_position`, `get_orientation`, `set_orientation`, `get_parent_handle`,
`set_parent`, `get_bbox_limits`, `copy_paste`, `call_script_func` with a
supported script type, `set_velocity`, `get_inv_distance`, `get_image`,
the `handle` and `name` properties) raises the "removed" `RuntimeError`
with 0 remote calls issued, and `remove()` itself raises it again. The
state is terminal: `remove` is the only operation producing a new object
state, and on a removed object it fails without producing one. -/
theorem c1_removed_state (obj : SceneObject) (hrem : obj.handleF = -2) :
    (∀ c rel r, SceneObject.get_position obj c rel r =
      (.error (.runtimeError ("Could not retrieve position of " ++
        obj.nameF ++ ": object removed.")), 0)) ∧
    (∀ c s pos rel a r, SceneObject.set_position obj c s pos rel a r =
      (.error (.runtimeError ("Could not set position of " ++ obj.nameF ++
        ": object removed.")), 0)) ∧
    (∀ c rel r, SceneObject.get_orientation obj c rel r =
      (.error (.runtimeError ("Could not retrieve orientation of " ++
        obj.nameF ++ ": object removed.")), 0)) ∧
    (∀ c s ori rel a r, SceneObject.set_orientation obj c s ori rel a r =
      (.error (.runtimeError ("Could not set orientation of " ++ obj.nameF
        ++ ": object removed.")), 0)) ∧
    (∀ c r, SceneObject.get_parent_handle obj c r =
      (.error (.runtimeError ("Could not retrieve handle to the parent of "
        ++ obj.nameF ++ ": object removed.")), 0)) ∧
    (∀ c par kp r, SceneObject.set_parent obj c par kp r =
      (.error (.runtimeError ("Could not set parent of " ++ obj.nameF ++
        ": object removed.")), 0)) ∧
    (∀ c prec resps, SceneObject.get_bbox_limits obj c prec resps =
      (.error (.runtimeError ("Could not retrieve limits of " ++ obj.nameF
        ++ " bounding box: object removed.")), 0)) ∧
    (∀ c r, SceneObject.copy_paste obj c r =
      (.error (.runtimeError ("Could not copy and paste " ++ obj.nameF ++
        ": object removed.")), 0)) ∧
    (∀ c fn st r, SceneObject.ASSOC_SCRIPT_TYPES st ≠ none →
      SceneObject.call_script_func obj c fn st r =
        (.error (.runtimeError ("Could not call function " ++ fn ++
          " from " ++ st ++ " script associated with " ++ obj.nameF ++
          ": object removed.")), 0)) ∧
    (∀ c v r, Motor.set_velocity obj c v r =
      (.error (.runtimeError ("Could not set " ++ obj.nameF ++
        " velocity: object removed.")), 0)) ∧
    (∀ c r, ProximitySensor.get_inv_distance obj c r =
      (.error (.runtimeError ("Could not retrieve data from " ++ obj.nameF
        ++ ": object removed.")), 0)) ∧
    (∀ c g r, VisionSensor.get_image obj c g r =
      (.error (.runtimeError ("Could not retrieve image from " ++ obj.nameF
        ++ ": object removed.")), 0)) ∧
    obj.handle = .error (.runtimeError ("Could not retrieve handle to " ++
      obj.nameF ++ ": object removed.")) ∧
    obj.name = .error (.runtimeError ("Could not retrieve name of " ++
      obj.nameF ++ ": object removed.")) ∧
    (∀ c r, SceneObject.remove obj c r =
      (.error (.runtimeError ("Could not remove " ++ obj.nameF ++
        ": object already removed.")), 0)) := by
  have hge : ¬ obj.handleF ≥ 0 := by omega
  have hne1 : obj.handleF ≠ -1 := by omega
  refine ⟨?_, ?_, ?_, ?_, ?_, ?_, ?_, ?_, ?_, ?_, ?_, ?_, ?_, ?_, ?_⟩
  · intro c rel r; simp [SceneObject.get_position, hrem]
  · intro c s pos rel a r; simp [SceneObject.set_position, hrem]
  · intro c rel r; simp [SceneObject.get_orientation, hrem]
  · intro c s ori rel a r; simp [SceneObject.set_orientation, hrem]
  · intro c r; simp [SceneObject.get_parent_handle, hrem]
  · intro c par kp r; simp [SceneObject.set_parent, hrem]
  · intro c prec resps; simp [SceneObject.get_bbox_limits, hrem]
  · intro c r; simp [SceneObject.copy_paste, hrem]
  · intro c fn st r hst
    obtain ⟨v, hv⟩ := Option.ne_none_iff_exists.mp hst
    unfold SceneObject.call_script_func
    rw [← hv]
    simp [hrem]
  · intro c v r; simp [Motor.set_velocity, hrem]
  · intro c r; simp [ProximitySensor.get_inv_distance, hrem]
  · intro c g r; simp [VisionSensor.get_image, hrem]
  · simp [SceneObject.handle, hrem, hge, hne1]
  · simp [SceneObject.name, hrem]
  · intro c r; simp [SceneObject.remove, hrem]

/-- Witness for C1 at a concrete removed object. -/
theorem c1_removed_state_witness :
    SceneObject.get_position ⟨"obj", -2⟩ (some 0) .pyNone (0, (0, 0, 0)) =
      (.error (.runtimeError ("Could not retrieve position of " ++ "obj" ++
        ": object removed.")), 0) :=
  (c1_removed_state ⟨"obj", -2⟩ rfl).1 (some 0) .pyNone (0, (0, 0, 0))

/-- Helper for C9: starting the `set_velocities` loop at index `m`, with a
velocity list shorter than required, live motors, a live connection and
successful set responses, the loop fails with `IndexError` after issuing
one remote call per remaining velocity. -/
theorem setVelocitiesLoop_short (c : Int) (vels : List ℚ)
    (resps : Nat → Int) (motors : List SceneObject) (m : Nat)
    (hlen : vels.length < m + motors.length) (hm : m ≤ vels.length)
    (hlive : ∀ mo ∈ motors, mo.handleF ≠ -2)
    (hok : ∀ k, resps k = simx_return_ok) :
    MotorArray.setVelocitiesLoop (some c) vels resps motors m =
      (.error .indexError, vels.length - m) := by
  induction motors generalizing m with
  | nil => simp at hlen; omega
  | cons motor rest ih =>
    have hmot : motor.handleF ≠ -2 := hlive motor (by simp)
    by_cases hcase : m < vels.length
    · have hget : vels.get? m = some (vels.get ⟨m, hcase⟩) :=
        List.get?_eq_get hcase
      have hrec := ih (m + 1) (by simp at hlen ⊢; omega) (by omega)
        (fun mo hmo => hlive mo (by simp [hmo]))
      have hcnt : 1 + (vels.length - (m + 1)) = vels.length - m := by omega
      simp only [MotorArray.setVelocitiesLoop, pyGetItem, hget,
        Motor.set_velocity, if_neg hmot, hok m, hrec]
      simp [hcnt]
    · have heq : m = vels.length := by omega
      have hget : vels.get? m = none := by
        rw [List.get?_eq_none]; omega
      simp [MotorArray.setVelocitiesLoop, pyGetItem, hget, heq]

/-- Claim C9 — `MotorArray.set_velocities` on an array of `n` live motors
with a live connection, successful remote responses and a velocity
sequence of length `m < n` raises `IndexError` when processing motor
`m + 1`, after issuing one remote call per supplied velocity. -/
theorem c9_set_velocities (motors : List SceneObject) (vels : List ℚ)
    (c : Int) (resps : Nat → Int) (hlen : vels.length < motors.length)
    (hlive : ∀ mo ∈ motors, mo.handleF ≠ -2)
    (hok : ∀ k, resps k = simx_return_ok) :
    MotorArray.set_velocities motors (some c) vels resps =
      (.error .indexError, vels.length) := by
  have h := setVelocitiesLoop_short c vels resps motors 0 (by omega)
    (by omega) hlive hok
  simpa [MotorArray.set_velocities] using h

/-- Witness for C9: a 3-motor array with a 2-element velocity list fails
with `IndexError` on the third motor, after two successful calls. -/
theorem c9_set_velocities_witness :
    MotorArray.set_velocities [⟨"m1", 1⟩, ⟨"m2", 2⟩, ⟨"m3", 3⟩] (some 0)
      [1, 2] (fun _ => simx_return_ok) = (.error .indexError, 2) :=
  c9_set_velocities [⟨"m1", 1⟩, ⟨"m2", 2⟩, ⟨"m3", 3⟩] [1, 2] 0
    (fun _ => simx_return_ok) (by decide) (by decide) (fun k => rfl)

/-- Helper: `range(0, 3*n, 3)` enumerates `n` chunk starts. -/
theorem pyRangeStep_three (n : Nat) :
    pyRangeStep (3 * n) 3 = (List.range n).map (fun i => i * 3) := by
  have h : (3 * n + 3 - 1) / 3 = n := by omega
  unfold pyRangeStep
  rw [h]

/-- Claim C8 — `Collection.get_positions` with a live connection and success
status: on the flat input `[1.2345, 2.3456, 3.4567, 4.5678, 5.6789,
6.7890]` with `prec = 2` it returns `[[1.23, 2.35, 3.46], [4.57, 5.68,
6.79]]`; in general with `prec = None` the values are returned unrounded,
the flat list of length `3*n` reshaped into `n` consecutive 3-element
lists in order. -/
theorem c8_get_positions (col : Collection) (c : Int) (n : Nat)
    (positions : List ℚ) (hlen : positions.length = 3 * n) :
    Collection.get_positions col (some c) (some 2)
      (simx_return_ok, [12345/10000, 23456/10000, 34567/10000, 45678/10000,
        56789/10000, 6789/1000]) =
      (.ok [[123/100, 235/100, 346/100], [457/100, 568/100, 679/100]],
        1) ∧
    Collection.get_positions col (some c) none (simx_return_ok, positions) =
      (.ok ((List.range n).map (fun i => (positions.drop (i * 3)).take 3)),
        1) ∧
    (∀ row ∈ (List.range n).map (fun i => (positions.drop (i * 3)).take 3),
      row.length = 3) := by
  refine ⟨?_, ?_, ?_⟩
  · have hround : ([12345/10000, 23456/10000, 34567/10000, 45678/10000,
        56789/10000, 6789/1000] : List ℚ).map (fun coord => pyRound coord 2)
        = [123/100, 235/100, 346/100, 457/100, 568/100, 679/100] := by
      simp only [List.map_cons, List.map_nil]
      unfold pyRound
      norm_num
    simp [Collection.get_positions, simx_return_ok, hround]
    norm_num [pyRangeStep, List.range_succ]
  · simp [Collection.get_positions, hlen, pyRangeStep_three]
  · intro row hrow
    simp only [List.mem_map, List.mem_range] at hrow
    obtain ⟨i, hi, hrow⟩ := hrow
    subst hrow
    simp [hlen]
    omega

/-- Witness for C8 at a concrete collection and a two-point flat list. -/
theorem c8_get_positions_witness :
    Collection.get_positions ⟨"col", 5⟩ (some 0) none
      (simx_return_ok, [1, 2, 3, 4, 5, 6]) =
      (.ok ((List.range 2).map
        (fun i => (([1, 2, 3, 4, 5, 6] : List ℚ).drop (i * 3)).take 3)),
        1) :=
  (c8_get_positions ⟨"col", 5⟩ 0 2 [1, 2, 3, 4, 5, 6] rfl).2.1

/-- Helper: `range(0, w*h, w)` enumerates `h` row starts when `w > 0`. -/
theorem pyRangeStep_rows (w h : Nat) (hw : 0 < w) :
    pyRangeStep (w * h) w = (List.range h).map (fun i => i * w) := by
  have h1 : (w * h + w - 1) / w = h := by
    have h2 : w * h + w - 1 = w * h + (w - 1) := by omega
    rw [h2, Nat.mul_add_div hw, Nat.div_eq_of_lt (by omega)]
    omega
  unfold pyRangeStep
  rw [h1]

/-- Helper: a `k`-element slice at offset `p` of a mapped range is the
mapped range of the shifted indices. -/
theorem drop_take_range_map {α : Type} (f : Nat → α) (n p k : Nat)
    (hpk : p + k ≤ n) :
    (((List.range n).map f).drop p).take k =
      (List.range k).map (fun j => f (p + j)) := by
  apply List.ext_getElem
  · simp; omega
  · intro i h1 h2
    simp [List.getElem_take, List.getElem_drop]

/-- The image layout stated by the spec for C2 (built from the spec's
words, for comparison with the embedded `get_image`): `h` rows of `w`
pixels, row `i` drawn from the raw buffer's row `h - 1 - i` (row 0 is the
last raw row), each pixel the 3 consecutive raw bytes reinterpreted as
unsigned (`v + 256` when negative). -/
def specImage (w h : Nat) (raw : List Int) : List (List Pixel) :=
  (List.range h).map (fun i =>
    (List.range w).map (fun j =>
      Pixel.rgb (((raw.drop (((h - 1 - i) * w + j) * 3)).take 3).map
        (fun v => if v ≥ 0 then v else v + 256))))

/-- Claim C2 — `VisionSensor.get_image(grayscale=False)` on a non-removed
sensor with a live connection, given a success status, resolution
`(w, h)` with `w > 0` and a flat buffer of `w*h*3` signed bytes, returns
exactly the spec's layout (`h` rows of `w` pixels, row 0 corresponding to
the last row of the raw bottom-up buffer), and every pixel is a 3-element
RGB list whose components are the raw values reinterpreted into
`[0, 255]`. -/
theorem c2_get_image (obj : SceneObject) (c : Int) (w h : Nat)
    (raw : List Int) (hlive : obj.handleF ≠ -2) (hw : 0 < w)
    (hlen : raw.length = w * h * 3)
    (hrange : ∀ v ∈ raw, -128 ≤ v ∧ v ≤ 127) :
    VisionSensor.get_image obj (some c) false (simx_return_ok, (w, h), raw)
      = (.ok (specImage w h raw), 1) ∧
    (specImage w h raw).length = h ∧
    (∀ row ∈ specImage w h raw, row.length = w) ∧
    (∀ row ∈ specImage w h raw, ∀ px ∈ row, ∃ t, px = .rgb t ∧
      t.length = 3 ∧ ∀ v ∈ t, 0 ≤ v ∧ v ≤ 255) := by
  have hA : VisionSensor.get_image obj (some c) false
      (simx_return_ok, (w, h), raw) =
      (.ok ((pyRangeStep (w * h) w).reverse.map (fun p =>
        (((pyRangeStep (3 * (w * h)) 3).map (fun q =>
          Pixel.rgb (((raw.map
            (fun v => if v ≥ 0 then v else v + 256)).drop q).take 3))).drop
              p).take w)), 1) := by
    simp only [VisionSensor.get_image, if_neg hlive]
    rfl
  have hB : ((pyRangeStep (w * h) w).reverse.map (fun p =>
      (((pyRangeStep (3 * (w * h)) 3).map (fun q =>
        Pixel.rgb (((raw.map
          (fun v => if v ≥ 0 then v else v + 256)).drop q).take 3))).drop
            p).take w)) = specImage w h raw := by
    rw [pyRangeStep_three, pyRangeStep_rows w h hw]
    apply List.ext_getElem
    · simp [specImage]
    · intro i h1 h2
      simp only [List.length_map, List.length_reverse, List.length_range]
        at h1
      simp only [List.getElem_map, List.getElem_reverse, List.length_map,
        List.length_range, List.getElem_range, specImage]
      rw [List.map_map]
      have hbound : (h - 1 - i) * w + w ≤ w * h := by
        have hb1 : (h - 1 - i) * w + w = (h - 1 - i + 1) * w := by ring
        rw [hb1]
        calc (h - 1 - i + 1) * w ≤ h * w := by
              apply Nat.mul_le_mul_right
              omega
          _ = w * h := Nat.mul_comm h w
      rw [drop_take_range_map _ (w * h) ((h - 1 - i) * w) w hbound]
      apply List.map_congr_left
      intro j hj
      simp only [Function.comp]
      congr 1
      simp [List.map_take, List.map_drop]
  refine ⟨hA.trans (by rw [hB]), by simp [specImage], ?_, ?_⟩
  · intro row hrow
    simp only [specImage, List.mem_map, List.mem_range] at hrow
    obtain ⟨i, hi, hrow⟩ := hrow
    subst hrow
    simp
  · intro row hrow px hpx
    simp only [specImage, List.mem_map, List.mem_range] at hrow
    obtain ⟨i, hi, hrow⟩ := hrow
    subst hrow
    simp only [List.mem_map, List.mem_range] at hpx
    obtain ⟨j, hj, hpx⟩ := hpx
    subst hpx
    refine ⟨_, rfl, ?_, ?_⟩
    · have h4 : (h - 1 - i) * w ≤ (h - 1) * w := by
        apply Nat.mul_le_mul_right
        omega
      have h5 : (h - 1) * w + w = h * w := by
        have hh : h - 1 + 1 = h := by omega
        calc (h - 1) * w + w = (h - 1 + 1) * w := by ring
          _ = h * w := by rw [hh]
      have h6 : h * w = w * h := Nat.mul_comm h w
      have hk : ((h - 1 - i) * w + j) + 1 ≤ w * h := by omega
      simp only [List.length_map, List.length_take, List.length_drop, hlen]
      omega
    · intro v hv
      simp only [List.mem_map] at hv
      obtain ⟨u, hu, hv⟩ := hv
      have humem : u ∈ raw :=
        List.drop_subset _ _ (List.take_subset _ _ hu)
      have hur := hrange u humem
      subst hv
      split <;> omega

/-- Witness for C2 at a concrete 2×2 image with negative raw bytes. -/
theorem c2_get_image_witness :
    VisionSensor.get_image ⟨"cam", 7⟩ (some 0) false
      (simx_return_ok, (2, 2), [0, -1, 2, 3, 4, 5, 6, 7, 8, -128, 10, 11])
      = (.ok (specImage 2 2 [0, -1, 2, 3, 4, 5, 6, 7, 8, -128, 10, 11]),
        1) :=
  (c2_get_image ⟨"cam", 7⟩ 0 2 2 [0, -1, 2, 3, 4, 5, 6, 7, 8, -128, 10, 11]
    (by decide) (by decide) rfl (by decide)).1
